import Mathlib

/-!
Verification of the `create-anytrust-custom-fee-token` example script
(`examples/create-anytrust-custom-fee-token/index.ts`).

The script is a one-shot orchestrator: module-level startup (environment
guards, identity resolution, client construction) followed by `main`, which
runs a deployment phase and a keyset phase, each in its own try/catch.

Shallow embedding: all external collaborators (viem account utilities,
orbit-sdk builders, the RPC transport) are a black-box `Oracle` whose
fallible calls return `Except`.  The script itself is a pure function of
the environment and the oracle, producing a trace of observable events
(console output, client construction, SDK calls, transaction submission)
plus a result.  Each definition mirrors the corresponding lines of the
source file; the traces make the control flow and data flow provable.
-/

namespace CreateAnytrust

/-- The five environment variables read by the script (via `process.env`
after `dotenv.config()`).  `none` models an unset variable. -/
structure Env where
  DEPLOYER_PRIVATE_KEY : Option String
  CUSTOM_FEE_TOKEN_ADDRESS : Option String
  PARENT_CHAIN_RPC : Option String
  BATCH_POSTER_PRIVATE_KEY : Option String
  VALIDATOR_PRIVATE_KEY : Option String
  deriving Repr, DecidableEq

/-- Result of `prepareChainConfig`: the script passes exactly these fields
(`chainId`, `arbitrum.InitialChainOwner`, `arbitrum.DataAvailabilityCommittee`). -/
structure ChainConfig where
  chainId : Nat
  initialChainOwner : String
  dataAvailabilityCommittee : Bool
  deriving Repr, DecidableEq

/-- Opaque result of `createRollupPrepareDeploymentParamsConfig`; the oracle
chooses its value from the arguments the script passes. -/
structure RollupParamsConfig where
  chainId : Nat
  owner : String
  chainConfig : ChainConfig
  deriving Repr, DecidableEq

/-- A prepared transaction request; the script only ever reads `.chainId`. -/
structure TxRequest where
  chainId : Nat
  deriving Repr, DecidableEq

/-- A confirmed transaction receipt; the script only reads `.transactionHash`. -/
structure Receipt where
  transactionHash : String
  deriving Repr, DecidableEq

/-- Core contracts extracted from the deployment receipt
(`createRollupPrepareTransactionReceipt(receipt).getCoreContracts()`). -/
structure CoreContracts where
  rollup : String
  inbox : String
  upgradeExecutor : String
  sequencerInbox : String
  deriving Repr, DecidableEq

/-- Black-box collaborators of the script: viem account utilities and the
orbit-sdk builders.  Fallible calls return `Except String`; quantifying over
the oracle quantifies over every outcome of every external call.
`generatedKey` is a stream of fresh keys indexed by a call counter. -/
structure Oracle where
  generatedKey : Nat → String
  sanitizePrivateKey : String → Except String String
  privateKeyToAccount : String → String
  generateChainId : Nat
  prepareParamsConfig : String → Nat → String → ChainConfig → RollupParamsConfig
  createRollupRequest :
    RollupParamsConfig → List String → List String → Option String → String →
      Except String TxRequest
  sendTransaction : TxRequest → Except String String
  waitForTransactionReceipt : String → Except String Receipt
  getCoreContracts : Receipt → Except String CoreContracts
  setValidKeysetRequest : String → String → String → String → Except String TxRequest

/-- Observable events of a run: console output, randomness consumption,
client construction, SDK builder calls, submission, confirmation wait. -/
inductive Event where
  | warn (msg : String)
  | log (msg : String)
  | logError (msg : String)
  | genPrivateKey (idx : Nat)
  | sanitize (raw : String)
  | mkPublicClient (chain : String) (url : String)
  | mkWalletClient (account : String) (chain : String) (url : String)
  | buildRollupRequest (cfg : RollupParamsConfig) (batchPosters : List String)
      (validators : List String) (nativeToken : Option String) (account : String)
  | sendTx (account : String) (req : TxRequest)
  | waitReceipt (hash : String)
  | parseReceipt (r : Receipt)
  | logCoreContracts (cc : CoreContracts)
  | buildKeysetRequest (upgradeExecutor : String) (sequencerInbox : String)
      (keyset : String) (account : String)
  deriving Repr, DecidableEq

/-- Holds for the transaction-submission event (`sendTransaction` on the
wallet client). -/
def Event.isSendTx : Event → Bool
  | Event.sendTx _ _ => true
  | _ => false

/-- Holds for the keyset-request build event
(`setValidKeysetPrepareTransactionRequest`). -/
def Event.isKeysetBuild : Event → Bool
  | Event.buildKeysetRequest _ _ _ _ => true
  | _ => false

/-- Holds for any console output line (log, warn, error). -/
def Event.isLogLine : Event → Bool
  | Event.warn _ => true
  | Event.log _ => true
  | Event.logError _ => true
  | _ => false

/-- Holds for construction of either viem client. -/
def Event.isClientConstruction : Event → Bool
  | Event.mkPublicClient _ _ => true
  | Event.mkWalletClient _ _ _ => true
  | _ => false

/-- The account an event binds to a signing operation: the `account` of
`createWalletClient` or of `sendTransaction`; `none` for every other event. -/
def Event.signerAccount : Event → Option String
  | Event.mkWalletClient a _ _ => some a
  | Event.sendTx a _ => some a
  | _ => none

/-- The parent chain fixed by the script (`arbitrumSepolia` from viem/chains). -/
def arbitrumSepoliaName : String := "arbitrumSepolia"

/-- Default public RPC endpoint of Arbitrum Sepolia in viem's chain registry. -/
def arbitrumSepoliaDefaultRpc : String := "https://sepolia-rollup.arbitrum.io/rpc"

/-- Hard-coded `upgradeExecutor` address in the keyset phase (index.ts). -/
def hardcodedUpgradeExecutor : String := "0x15b5BDf7a5e0305B9a4bE413383C9b1500C8FCF2"

/-- Hard-coded `sequencerInbox` address in the keyset phase (index.ts). -/
def hardcodedSequencerInbox : String := "0x6c97864CE4bEf387dE0b3310A44230f7E3F1be0D"

/-- The literal keyset blob from the keyset phase of index.ts. -/
def keysetBlob : String := "0x000000000000000100000000000000010121600e6aaa4020e004ce635a088fff55a10e2e53cdb6bff78b48b37e7d3ab93c8167e4c719a123cd051726132b3c35b113380606924fddcb816562ae7616fc7f3f310cc65a605b687157340647613f449471434a86fd528b1b68dccd91ab18ee7eb116db8475834d9c7577b034db754bfdd69f3b4f4e37599b9691fba1bf973777e49ed7b01fa6bbc06f41db6e8d85268a7b01912b627c19bb9baac20cd13fca76d08a9783b54c2c50fb8f513760114cd0b73161c2aaa8042e7dc5d5406720e31cde018fa7068a474ba985d6b9690cfd3cd3b88b1b9cb680b59ef089eddbc2fa875d0b01457688b3d7b7eabe4fb4018a812c03e19e84c802f5b12d619715a8ac920831510636a641417adf8650f697bbe10457d5bd06ca261b4194efa9fc5b42eaaa"

/-- Error message thrown when `DEPLOYER_PRIVATE_KEY` is unset. -/
def dpkMissingMsg : String := "Please provide the \"DEPLOYER_PRIVATE_KEY\" environment variable"

/-- Error message thrown when `CUSTOM_FEE_TOKEN_ADDRESS` is unset. -/
def cftaMissingMsg : String := "Please provide the \"CUSTOM_FEE_TOKEN_ADDRESS\" environment variable"

/-- Warning printed when `PARENT_CHAIN_RPC` is unset or empty. -/
def rpcWarningMsg : String := "Warning: you may encounter timeout errors while running the script with the default rpc endpoint. Please provide the \"PARENT_CHAIN_RPC\" environment variable instead."

/-- Catch-handler message of the deployment phase
(`console.error` with the caught error interpolated). -/
def depErrorMsg (e : String) : String := "Rollup creation failed with error: " ++ e

/-- The script's test `typeof PARENT_CHAIN_RPC === 'undefined' || PARENT_CHAIN_RPC === ''`. -/
def rpcMissing (env : Env) : Bool :=
  match env.PARENT_CHAIN_RPC with
  | none => true
  | some s => s = ""

/-- Warning events emitted at startup (index.ts lines 31-35). -/
def warnLead (env : Env) : List Event :=
  if rpcMissing env then [Event.warn rpcWarningMsg] else []

/-- Modelled from the spec: viem's `http` transport bound to a chain falls
back to the chain's default public endpoint when the configured URL is
absent or empty ("Missing/empty → warning + fallback to default public
endpoint"); viem itself is outside this repository. -/
def httpEffectiveUrl (url : Option String) (defaultUrl : String) : String :=
  match url with
  | none => defaultUrl
  | some s => if s = "" then defaultUrl else s

/-- Effective endpoint both clients are constructed with:
`http(process.env.PARENT_CHAIN_RPC)` under the `arbitrumSepolia` chain. -/
def effUrl (env : Env) : String :=
  httpEffectiveUrl env.PARENT_CHAIN_RPC arbitrumSepoliaDefaultRpc

/-- index.ts lines 15-21: return a generated key when the variable is unset
or empty, otherwise normalize it with `sanitizePrivateKey` (which may
throw).  Returns the resulting key, the advanced generation counter, and
the events of the call. -/
def withFallbackPrivateKey (o : Oracle) (n : Nat) (privateKey : Option String) :
    Except String String × Nat × List Event :=
  match privateKey with
  | none => (Except.ok (o.generatedKey n), n + 1, [Event.genPrivateKey n])
  | some s =>
    if s = "" then (Except.ok (o.generatedKey n), n + 1, [Event.genPrivateKey n])
    else (o.sanitizePrivateKey s, n, [Event.sanitize s])

/-- The events of a `withFallbackPrivateKey` call. -/
def wfpkTrace (o : Oracle) (n : Nat) (privateKey : Option String) : List Event :=
  (withFallbackPrivateKey o n privateKey).2.2

/-- Module-level state after startup succeeds: resolved identities and the
two constructed clients. -/
structure ModuleState where
  batchPosterPrivateKey : String
  batchPoster : String
  validatorPrivateKey : String
  validator : String
  publicClientUrl : String
  deployer : String
  walletAccount : String
  walletClientUrl : String
  deriving Repr, DecidableEq

/-- index.ts lines 23-60: the module-level startup code, in source order —
the two required-variable guards, the RPC warning, batch-poster and
validator resolution, public-client construction, deployer resolution,
wallet-client construction.  A thrown error aborts the module (the rest of
the trace never happens). -/
def moduleInit (env : Env) (o : Oracle) : Except String ModuleState × List Event :=
  match env.DEPLOYER_PRIVATE_KEY with
  | none => (Except.error dpkMissingMsg, [])
  | some dpk =>
    match env.CUSTOM_FEE_TOKEN_ADDRESS with
    | none => (Except.error cftaMissingMsg, [])
    | some _cfta =>
      match withFallbackPrivateKey o 0 env.BATCH_POSTER_PRIVATE_KEY with
      | (Except.error e, _, evs1) => (Except.error e, warnLead env ++ evs1)
      | (Except.ok bppk, n1, evs1) =>
        match withFallbackPrivateKey o n1 env.VALIDATOR_PRIVATE_KEY with
        | (Except.error e, _, evs2) => (Except.error e, warnLead env ++ evs1 ++ evs2)
        | (Except.ok vpk, _, evs2) =>
          match o.sanitizePrivateKey dpk with
          | Except.error e =>
            (Except.error e,
             warnLead env ++ evs1 ++ evs2 ++
               [Event.mkPublicClient arbitrumSepoliaName (effUrl env), Event.sanitize dpk])
          | Except.ok dkey =>
            (Except.ok
              { batchPosterPrivateKey := bppk
                batchPoster := o.privateKeyToAccount bppk
                validatorPrivateKey := vpk
                validator := o.privateKeyToAccount vpk
                publicClientUrl := effUrl env
                deployer := o.privateKeyToAccount dkey
                walletAccount := o.privateKeyToAccount dkey
                walletClientUrl := effUrl env },
             warnLead env ++ evs1 ++ evs2 ++
               [Event.mkPublicClient arbitrumSepoliaName (effUrl env), Event.sanitize dpk,
                Event.mkWalletClient (o.privateKeyToAccount dkey) arbitrumSepoliaName
                  (effUrl env)])

/-- The `chainConfig` the script passes to `prepareChainConfig` inside
`createRollupPrepareDeploymentParamsConfig` (index.ts lines 68-78). -/
def chainConfigOf (o : Oracle) (st : ModuleState) : ChainConfig :=
  { chainId := o.generateChainId
    initialChainOwner := st.deployer
    dataAvailabilityCommittee := true }

/-- The `createRollupConfig` value built before the deployment try block. -/
def rollupConfigOf (o : Oracle) (st : ModuleState) : RollupParamsConfig :=
  o.prepareParamsConfig st.publicClientUrl o.generateChainId st.deployer (chainConfigOf o st)

/-- The `createRollupPrepareTransactionRequest` call of the deployment try
block, as an event: the prepared config, the single-element poster and
validator lists, the raw `CUSTOM_FEE_TOKEN_ADDRESS` value as native token,
and the deployer as sender. -/
def buildEvOf (env : Env) (o : Oracle) (st : ModuleState) : Event :=
  Event.buildRollupRequest (rollupConfigOf o st) [st.batchPoster] [st.validator]
    env.CUSTOM_FEE_TOKEN_ADDRESS st.deployer

/-- Deployment-phase events up to and including transaction submission. -/
def deployEvs1 (env : Env) (o : Oracle) (st : ModuleState) (txRequest : TxRequest) :
    List Event :=
  [buildEvOf env o st,
   Event.log "Transaction request prepared successfully",
   Event.log ("Parent Chain ID: " ++ toString txRequest.chainId),
   Event.log "Creating rollup...",
   Event.sendTx st.walletAccount txRequest]

/-- Deployment-phase events up to and including the confirmation wait. -/
def deployEvs2 (env : Env) (o : Oracle) (st : ModuleState) (txRequest : TxRequest)
    (txHash : String) : List Event :=
  deployEvs1 env o st txRequest ++
    [Event.log "Transaction sent. Waiting for confirmation...", Event.waitReceipt txHash]

/-- Deployment-phase events up to and including receipt parsing. -/
def deployEvs3 (env : Env) (o : Oracle) (st : ModuleState) (txRequest : TxRequest)
    (txHash : String) (receipt : Receipt) : List Event :=
  deployEvs2 env o st txRequest txHash ++
    [Event.log ("Transaction confirmed: " ++ receipt.transactionHash),
     Event.parseReceipt receipt]

/-- All deployment-phase events of a fully successful attempt. -/
def deployEvsOk (env : Env) (o : Oracle) (st : ModuleState) (txRequest : TxRequest)
    (txHash : String) (receipt : Receipt) (cc : CoreContracts) : List Event :=
  deployEvs3 env o st txRequest txHash receipt ++
    [Event.logCoreContracts cc,
     Event.log ("Rollup address: " ++ cc.rollup),
     Event.log ("Inbox address: " ++ cc.inbox)]

/-- index.ts lines 85-115: the body of the deployment try block — build the
rollup transaction request, log, submit via the wallet client, log, wait
for confirmation, log, parse the receipt into core contracts, log the core
contracts and the rollup and inbox addresses.  The first error aborts the
body with the events produced so far. -/
def deployAttempt (env : Env) (o : Oracle) (st : ModuleState) :
    List Event × Except String CoreContracts :=
  match o.createRollupRequest (rollupConfigOf o st) [st.batchPoster] [st.validator]
      env.CUSTOM_FEE_TOKEN_ADDRESS st.deployer with
  | Except.error e => ([buildEvOf env o st], Except.error e)
  | Except.ok txRequest =>
    match o.sendTransaction txRequest with
    | Except.error e => (deployEvs1 env o st txRequest, Except.error e)
    | Except.ok txHash =>
      match o.waitForTransactionReceipt txHash with
      | Except.error e => (deployEvs2 env o st txRequest txHash, Except.error e)
      | Except.ok receipt =>
        match o.getCoreContracts receipt with
        | Except.error e => (deployEvs3 env o st txRequest txHash receipt, Except.error e)
        | Except.ok cc => (deployEvsOk env o st txRequest txHash receipt cc, Except.ok cc)

/-- The deployment phase with its catch handler: a caught error is logged
with `console.error` and execution continues (index.ts lines 83-116). -/
def deployPhase (env : Env) (o : Oracle) (st : ModuleState) :
    List Event × Option CoreContracts :=
  match deployAttempt env o st with
  | (evs, Except.error e) => (evs ++ [Event.logError (depErrorMsg e)], none)
  | (evs, Except.ok cc) => (evs, some cc)

/-- index.ts lines 118-135: the keyset try block builds a keyset
transaction request against the two hard-coded addresses; the prepared
request is never submitted, and the catch block is empty (the error is
swallowed without a log line). -/
def keysetPhase (o : Oracle) (st : ModuleState) : List Event :=
  let buildEv := Event.buildKeysetRequest hardcodedUpgradeExecutor hardcodedSequencerInbox
    keysetBlob st.deployer
  match o.setValidKeysetRequest hardcodedUpgradeExecutor hardcodedSequencerInbox
      keysetBlob st.deployer with
  | Except.error _ => [buildEv]
  | Except.ok _ => [buildEv]

/-- The body of `main`: the deployment phase followed unconditionally by
the keyset phase. -/
def mainRun (env : Env) (o : Oracle) (st : ModuleState) : List Event :=
  (deployPhase env o st).1 ++ keysetPhase o st

/-- The whole script: module-level startup, then `main()`.  A module-level
throw terminates the process before `main` runs. -/
def script (env : Env) (o : Oracle) : Except String Unit × List Event :=
  match moduleInit env o with
  | (Except.error e, evs) => (Except.error e, evs)
  | (Except.ok st, evs) => (Except.ok (), evs ++ mainRun env o st)

/-! ### Concrete instances used for witnesses and counterexamples -/

/-- An oracle on which every external call succeeds. -/
def oracleOk : Oracle where
  generatedKey := fun n => "0xgenerated" ++ toString n
  sanitizePrivateKey := fun s => Except.ok ("0x" ++ s)
  privateKeyToAccount := fun k => "addr:" ++ k
  generateChainId := 97400766948
  prepareParamsConfig := fun _ c own cfg => { chainId := c, owner := own, chainConfig := cfg }
  createRollupRequest := fun _ _ _ _ _ => Except.ok { chainId := 421614 }
  sendTransaction := fun _ => Except.ok "0xtxhash"
  waitForTransactionReceipt := fun h => Except.ok { transactionHash := h }
  getCoreContracts := fun _ =>
    Except.ok { rollup := "0xAAA", inbox := "0xBBB",
                upgradeExecutor := "0xUE", sequencerInbox := "0xSI" }
  setValidKeysetRequest := fun _ _ _ _ => Except.ok { chainId := 421614 }

/-- An oracle whose transaction submission fails with a transport error. -/
def oracleSendFail : Oracle :=
  { oracleOk with sendTransaction := fun _ => Except.error "transport error" }

/-- An oracle whose keyset-request build fails. -/
def oracleKeysetFail : Oracle :=
  { oracleOk with setValidKeysetRequest := fun _ _ _ _ => Except.error "keyset transport error" }

/-- A fully-populated environment. -/
def envOk : Env where
  DEPLOYER_PRIVATE_KEY := some "deployerkey"
  CUSTOM_FEE_TOKEN_ADDRESS := some "0xFEE0000000000000000000000000000000000001"
  PARENT_CHAIN_RPC := some "https://example.org/rpc"
  BATCH_POSTER_PRIVATE_KEY := none
  VALIDATOR_PRIVATE_KEY := none

/-- A concrete module state (the one `moduleInit envOk oracleOk` produces). -/
def stX : ModuleState where
  batchPosterPrivateKey := "0xgenerated0"
  batchPoster := "addr:0xgenerated0"
  validatorPrivateKey := "0xgenerated1"
  validator := "addr:0xgenerated1"
  publicClientUrl := "https://example.org/rpc"
  deployer := "addr:0xdeployerkey"
  walletAccount := "addr:0xdeployerkey"
  walletClientUrl := "https://example.org/rpc"

/-- An environment with `DEPLOYER_PRIVATE_KEY` unset. -/
def envNoDeployer : Env where
  DEPLOYER_PRIVATE_KEY := none
  CUSTOM_FEE_TOKEN_ADDRESS := some "0xFEE0000000000000000000000000000000000001"
  PARENT_CHAIN_RPC := some "https://example.org/rpc"
  BATCH_POSTER_PRIVATE_KEY := none
  VALIDATOR_PRIVATE_KEY := none

/-- An environment whose required variables are set to the empty string
and whose optional `BATCH_POSTER_PRIVATE_KEY` is also the empty string. -/
def envEmptyStrings : Env where
  DEPLOYER_PRIVATE_KEY := some ""
  CUSTOM_FEE_TOKEN_ADDRESS := some ""
  PARENT_CHAIN_RPC := some "https://example.org/rpc"
  BATCH_POSTER_PRIVATE_KEY := some ""
  VALIDATOR_PRIVATE_KEY := none

/-- An environment with `PARENT_CHAIN_RPC` unset. -/
def envNoRpc : Env where
  DEPLOYER_PRIVATE_KEY := some "deployerkey"
  CUSTOM_FEE_TOKEN_ADDRESS := some "0xFEE0000000000000000000000000000000000001"
  PARENT_CHAIN_RPC := none
  BATCH_POSTER_PRIVATE_KEY := none
  VALIDATOR_PRIVATE_KEY := none

/-- The module trace `moduleInit envOk oracleOk` produces. -/
def trOk : List Event :=
  [Event.genPrivateKey 0, Event.genPrivateKey 1,
   Event.mkPublicClient "arbitrumSepolia" "https://example.org/rpc",
   Event.sanitize "deployerkey",
   Event.mkWalletClient "addr:0xdeployerkey" "arbitrumSepolia" "https://example.org/rpc"]

/-- The transaction request `oracleOk` prepares. -/
def reqOk : TxRequest where
  chainId := 421614

/-- The receipt `oracleOk` confirms. -/
def rcptOk : Receipt where
  transactionHash := "0xtxhash"

/-- The core contracts `oracleOk` extracts. -/
def ccOk : CoreContracts where
  rollup := "0xAAA"
  inbox := "0xBBB"
  upgradeExecutor := "0xUE"
  sequencerInbox := "0xSI"

/-- The module state `moduleInit envNoRpc oracleOk` produces. -/
def stNoRpc : ModuleState where
  batchPosterPrivateKey := "0xgenerated0"
  batchPoster := "addr:0xgenerated0"
  validatorPrivateKey := "0xgenerated1"
  validator := "addr:0xgenerated1"
  publicClientUrl := "https://sepolia-rollup.arbitrum.io/rpc"
  deployer := "addr:0xdeployerkey"
  walletAccount := "addr:0xdeployerkey"
  walletClientUrl := "https://sepolia-rollup.arbitrum.io/rpc"

/-- The module trace `moduleInit envNoRpc oracleOk` produces. -/
def trNoRpc : List Event :=
  [Event.warn rpcWarningMsg, Event.genPrivateKey 0, Event.genPrivateKey 1,
   Event.mkPublicClient "arbitrumSepolia" "https://sepolia-rollup.arbitrum.io/rpc",
   Event.sanitize "deployerkey",
   Event.mkWalletClient "addr:0xdeployerkey" "arbitrumSepolia"
     "https://sepolia-rollup.arbitrum.io/rpc"]

/-- The module state `moduleInit envEmptyStrings oracleOk` produces. -/
def stEmpty : ModuleState where
  batchPosterPrivateKey := "0xgenerated0"
  batchPoster := "addr:0xgenerated0"
  validatorPrivateKey := "0xgenerated1"
  validator := "addr:0xgenerated1"
  publicClientUrl := "https://example.org/rpc"
  deployer := "addr:0x"
  walletAccount := "addr:0x"
  walletClientUrl := "https://example.org/rpc"

/-- The module trace `moduleInit envEmptyStrings oracleOk` produces. -/
def trEmpty : List Event :=
  [Event.genPrivateKey 0, Event.genPrivateKey 1,
   Event.mkPublicClient "arbitrumSepolia" "https://example.org/rpc",
   Event.sanitize "",
   Event.mkWalletClient "addr:0x" "arbitrumSepolia" "https://example.org/rpc"]

/-! ### Helper lemmas -/

/-- Whatever the oracle answers, the keyset phase consists of exactly the
one build event against the hard-coded addresses: nothing is sent and
nothing is logged. -/
theorem keysetPhase_eq (o : Oracle) (st : ModuleState) :
    keysetPhase o st =
      [Event.buildKeysetRequest hardcodedUpgradeExecutor hardcodedSequencerInbox
        keysetBlob st.deployer] := by
  unfold keysetPhase
  cases o.setValidKeysetRequest hardcodedUpgradeExecutor hardcodedSequencerInbox
      keysetBlob st.deployer <;> rfl

/-- A `withFallbackPrivateKey` call produces either a key-generation event
or a sanitize event of the supplied raw secret. -/
theorem wfpkTrace_cases (o : Oracle) (n : Nat) (s : Option String) :
    wfpkTrace o n s = [Event.genPrivateKey n] ∨
      ∃ raw, s = some raw ∧ wfpkTrace o n s = [Event.sanitize raw] := by
  unfold wfpkTrace withFallbackPrivateKey
  match s with
  | none => exact Or.inl rfl
  | some raw =>
    by_cases hr : raw = ""
    · subst hr; exact Or.inl (by simp)
    · exact Or.inr ⟨raw, rfl, by simp [hr]⟩

/-- Characterization of a successful module startup: the environment
guards passed, the identities resolved, and the state and trace have the
shape dictated by index.ts lines 23-60. -/
theorem moduleInit_ok_char (env : Env) (o : Oracle) (st : ModuleState) (tr : List Event)
    (h : moduleInit env o = (Except.ok st, tr)) :
    ∃ dpk cfta bppk n1 vpk n2 dkey,
      env.DEPLOYER_PRIVATE_KEY = some dpk ∧
      env.CUSTOM_FEE_TOKEN_ADDRESS = some cfta ∧
      withFallbackPrivateKey o 0 env.BATCH_POSTER_PRIVATE_KEY =
        (Except.ok bppk, n1, wfpkTrace o 0 env.BATCH_POSTER_PRIVATE_KEY) ∧
      withFallbackPrivateKey o n1 env.VALIDATOR_PRIVATE_KEY =
        (Except.ok vpk, n2, wfpkTrace o n1 env.VALIDATOR_PRIVATE_KEY) ∧
      o.sanitizePrivateKey dpk = Except.ok dkey ∧
      st = { batchPosterPrivateKey := bppk, batchPoster := o.privateKeyToAccount bppk,
             validatorPrivateKey := vpk, validator := o.privateKeyToAccount vpk,
             publicClientUrl := effUrl env, deployer := o.privateKeyToAccount dkey,
             walletAccount := o.privateKeyToAccount dkey, walletClientUrl := effUrl env } ∧
      tr = warnLead env ++ wfpkTrace o 0 env.BATCH_POSTER_PRIVATE_KEY ++
             wfpkTrace o n1 env.VALIDATOR_PRIVATE_KEY ++
             [Event.mkPublicClient arbitrumSepoliaName (effUrl env), Event.sanitize dpk,
              Event.mkWalletClient (o.privateKeyToAccount dkey) arbitrumSepoliaName
                (effUrl env)] := by
  unfold moduleInit at h
  split at h
  · simp at h
  split at h
  · simp at h
  split at h
  · simp at h
  split at h
  · simp at h
  split at h
  · simp at h
  rename_i x1 dpk hdpk x2 cfta hcf x3 bppk n1 evs1 hbp x4 vpk n2 evs2 hvp x5 dkey hsan
  injection h with h1 h2
  injection h1 with h1
  subst h1
  subst h2
  have e1 : wfpkTrace o 0 env.BATCH_POSTER_PRIVATE_KEY = evs1 := by
    unfold wfpkTrace; rw [hbp]
  have e2 : wfpkTrace o n1 env.VALIDATOR_PRIVATE_KEY = evs2 := by
    unfold wfpkTrace; rw [hvp]
  exact ⟨dpk, cfta, bppk, n1, vpk, n2, dkey, hdpk, hcf,
    by rw [e1]; exact hbp, by rw [e2]; exact hvp, hsan, rfl,
    by rw [e1, e2]⟩

/-- The deployment attempt ends in one of five shapes: failure at request
construction, at submission, at the confirmation wait, at receipt parsing,
or full success. -/
theorem deployAttempt_cases (env : Env) (o : Oracle) (st : ModuleState) :
    (∃ e, deployAttempt env o st = ([buildEvOf env o st], Except.error e)) ∨
    (∃ req e, deployAttempt env o st = (deployEvs1 env o st req, Except.error e)) ∨
    (∃ req txh e, deployAttempt env o st = (deployEvs2 env o st req txh, Except.error e)) ∨
    (∃ req txh r e, deployAttempt env o st = (deployEvs3 env o st req txh r, Except.error e)) ∨
    (∃ req txh r cc, deployAttempt env o st = (deployEvsOk env o st req txh r cc, Except.ok cc)) := by
  rcases hc : o.createRollupRequest (rollupConfigOf o st) [st.batchPoster] [st.validator]
      env.CUSTOM_FEE_TOKEN_ADDRESS st.deployer with e | req
  · refine Or.inl ⟨e, ?_⟩
    unfold deployAttempt
    simp only [hc]
  · rcases hs : o.sendTransaction req with e | txh
    · refine Or.inr (Or.inl ⟨req, e, ?_⟩)
      unfold deployAttempt
      simp only [hc, hs]
    · rcases hw : o.waitForTransactionReceipt txh with e | r
      · refine Or.inr (Or.inr (Or.inl ⟨req, txh, e, ?_⟩))
        unfold deployAttempt
        simp only [hc, hs, hw]
      · rcases hg : o.getCoreContracts r with e | cc
        · refine Or.inr (Or.inr (Or.inr (Or.inl ⟨req, txh, r, e, ?_⟩)))
          unfold deployAttempt
          simp only [hc, hs, hw, hg]
        · refine Or.inr (Or.inr (Or.inr (Or.inr ⟨req, txh, r, cc, ?_⟩)))
          unfold deployAttempt
          simp only [hc, hs, hw, hg]

/-- The rollup-request build call always happens in the deployment attempt. -/
theorem deployAttempt_build_mem (env : Env) (o : Oracle) (st : ModuleState) :
    buildEvOf env o st ∈ (deployAttempt env o st).1 := by
  rcases deployAttempt_cases env o st with ⟨e, hq⟩ | ⟨req, e, hq⟩ | ⟨req, txh, e, hq⟩ |
    ⟨req, txh, r, e, hq⟩ | ⟨req, txh, r, cc, hq⟩ <;>
    rw [hq] <;> simp [deployEvs1, deployEvs2, deployEvs3, deployEvsOk]

/-- No keyset-build event is ever produced by the deployment attempt. -/
theorem deployAttempt_no_keyset (env : Env) (o : Oracle) (st : ModuleState) :
    (deployAttempt env o st).1.filter Event.isKeysetBuild = [] := by
  rcases deployAttempt_cases env o st with ⟨e, hq⟩ | ⟨req, e, hq⟩ | ⟨req, txh, e, hq⟩ |
    ⟨req, txh, r, e, hq⟩ | ⟨req, txh, r, cc, hq⟩ <;>
    rw [hq] <;>
    simp [deployEvs1, deployEvs2, deployEvs3, deployEvsOk, buildEvOf, Event.isKeysetBuild]

/-- Every deployment-attempt event either binds no signer or binds the
wallet-client account. -/
theorem deployAttempt_signer (env : Env) (o : Oracle) (st : ModuleState) :
    ∀ ev ∈ (deployAttempt env o st).1,
      ev.signerAccount = none ∨ ev.signerAccount = some st.walletAccount := by
  rcases deployAttempt_cases env o st with ⟨e, hq⟩ | ⟨req, e, hq⟩ | ⟨req, txh, e, hq⟩ |
    ⟨req, txh, r, e, hq⟩ | ⟨req, txh, r, cc, hq⟩ <;>
    rw [hq] <;>
    simp [deployEvs1, deployEvs2, deployEvs3, deployEvsOk, buildEvOf, Event.signerAccount,
      List.forall_mem_cons]

/-- The rollup-request build call always happens in the deployment phase. -/
theorem deployPhase_build_mem (env : Env) (o : Oracle) (st : ModuleState) :
    buildEvOf env o st ∈ (deployPhase env o st).1 := by
  unfold deployPhase
  have hmem := deployAttempt_build_mem env o st
  rcases hda : deployAttempt env o st with ⟨evs, res⟩
  rw [hda] at hmem
  cases res with
  | error e => exact List.mem_append_left _ hmem
  | ok cc => exact hmem

/-- No keyset-build event is ever produced by the deployment phase. -/
theorem deployPhase_no_keyset (env : Env) (o : Oracle) (st : ModuleState) :
    (deployPhase env o st).1.filter Event.isKeysetBuild = [] := by
  unfold deployPhase
  have hf := deployAttempt_no_keyset env o st
  rcases hda : deployAttempt env o st with ⟨evs, res⟩
  rw [hda] at hf
  cases res with
  | error e => simp [List.filter_append, hf, Event.isKeysetBuild]
  | ok cc => exact hf

/-- A failed deployment phase always logs the catch-handler error line. -/
theorem deployPhase_fail_log (env : Env) (o : Oracle) (st : ModuleState)
    (h : (deployPhase env o st).2 = none) :
    ∃ e, Event.logError (depErrorMsg e) ∈ (deployPhase env o st).1 := by
  unfold deployPhase at h ⊢
  rcases hda : deployAttempt env o st with ⟨evs, res⟩
  rw [hda] at h
  cases res with
  | error e => exact ⟨e, List.mem_append_right _ (List.mem_singleton_self _)⟩
  | ok cc => exact Option.noConfusion h

/-- Every deployment-phase event either binds no signer or binds the
wallet-client account. -/
theorem deployPhase_signer (env : Env) (o : Oracle) (st : ModuleState) :
    ∀ ev ∈ (deployPhase env o st).1,
      ev.signerAccount = none ∨ ev.signerAccount = some st.walletAccount := by
  unfold deployPhase
  have hs := deployAttempt_signer env o st
  rcases hda : deployAttempt env o st with ⟨evs, res⟩
  rw [hda] at hs
  cases res with
  | error e =>
    intro ev hev
    rcases List.mem_append.mp hev with hl | hl
    · exact hs ev hl
    · rw [List.mem_singleton.mp hl]; exact Or.inl rfl
  | ok cc => exact hs

/-- The script trace is the module trace followed by the `main` trace when
startup succeeds, and just the module trace when startup throws. -/
theorem script_trace (env : Env) (o : Oracle) :
    (script env o).2 = (moduleInit env o).2 ++
      (match (moduleInit env o).1 with
       | Except.ok st => mainRun env o st
       | Except.error _ => []) := by
  unfold script
  rcases hm : moduleInit env o with ⟨res, evs⟩
  cases res <;> simp

/-- Events of `withFallbackPrivateKey` never bind a signer. -/
theorem wfpk_signer (o : Oracle) (n : Nat) (s : Option String) :
    ∀ ev ∈ wfpkTrace o n s, ev.signerAccount = none := by
  rcases wfpkTrace_cases o n s with hc | ⟨raw, _, hc⟩ <;>
    rw [hc] <;> simp [Event.signerAccount]

/-- No warning event appears in a `withFallbackPrivateKey` trace. -/
theorem warn_not_mem_wfpk (o : Oracle) (n : Nat) (s : Option String) (m : String) :
    Event.warn m ∉ wfpkTrace o n s := by
  rcases wfpkTrace_cases o n s with hc | ⟨raw, _, hc⟩ <;> rw [hc] <;> simp

/-- When `PARENT_CHAIN_RPC` is unset or empty, the effective endpoint is
the chain's default public endpoint. -/
theorem effUrl_of_missing (env : Env) (h : rpcMissing env = true) :
    effUrl env = arbitrumSepoliaDefaultRpc := by
  unfold effUrl httpEffectiveUrl
  unfold rpcMissing at h
  cases henv : env.PARENT_CHAIN_RPC with
  | none => rfl
  | some s =>
    rw [henv] at h
    simp at h
    simp [h]

/-- When `PARENT_CHAIN_RPC` is set non-empty, the effective endpoint is
that value. -/
theorem effUrl_of_set (env : Env) (h : rpcMissing env = false) :
    ∃ s, env.PARENT_CHAIN_RPC = some s ∧ s ≠ "" ∧ effUrl env = s := by
  unfold effUrl httpEffectiveUrl
  unfold rpcMissing at h
  cases henv : env.PARENT_CHAIN_RPC with
  | none => rw [henv] at h; simp at h
  | some s =>
    rw [henv] at h
    simp at h
    exact ⟨s, rfl, h, by simp [h]⟩

/-! ### Claim theorems -/

/-- C1: for every outcome of the deployment phase — success or an error
from request construction, submission, the confirmation wait, or receipt
parsing (the oracle is universally quantified, so every such error is
covered) — the keyset phase is still invoked afterwards, and whenever the
deployment phase failed, the error was caught and logged with the
catch-handler error line.  A deployment failure never terminates the run
before the keyset phase runs. -/
theorem C1_deploy_failure_nonfatal (env : Env) (o : Oracle) (st : ModuleState) :
    Event.buildKeysetRequest hardcodedUpgradeExecutor hardcodedSequencerInbox keysetBlob
      st.deployer ∈ mainRun env o st ∧
    ((deployPhase env o st).2 = none →
      ∃ e, Event.logError (depErrorMsg e) ∈ mainRun env o st) := by
  constructor
  · unfold mainRun
    rw [keysetPhase_eq]
    exact List.mem_append_right _ (List.mem_singleton_self _)
  · intro h
    obtain ⟨e, he⟩ := deployPhase_fail_log env o st h
    exact ⟨e, List.mem_append_left _ he⟩

/-- Witness for C1 at a concrete run whose transaction submission fails
with a transport error. -/
theorem C1_deploy_failure_nonfatal_witness :
    Event.buildKeysetRequest hardcodedUpgradeExecutor hardcodedSequencerInbox keysetBlob
      stX.deployer ∈ mainRun envOk oracleSendFail stX ∧
    ∃ e, Event.logError (depErrorMsg e) ∈ mainRun envOk oracleSendFail stX :=
  ⟨(C1_deploy_failure_nonfatal envOk oracleSendFail stX).1,
   (C1_deploy_failure_nonfatal envOk oracleSendFail stX).2 rfl⟩

/-- C2: in every run (the oracle — and with it the `CoreContracts` parsed
from the deployment receipt — is universally quantified), the keyset phase
makes exactly one build call, and its core-contracts argument is the fixed
hard-coded pair, not the addresses the deployment produced. -/
theorem C2_keyset_addresses_hardcoded (env : Env) (o : Oracle) (st : ModuleState) :
    (mainRun env o st).filter Event.isKeysetBuild =
      [Event.buildKeysetRequest hardcodedUpgradeExecutor hardcodedSequencerInbox keysetBlob
        st.deployer] := by
  unfold mainRun
  rw [List.filter_append, deployPhase_no_keyset, keysetPhase_eq]
  simp [Event.isKeysetBuild]

/-- C3 counterexample: on a concrete run in which every external call
succeeds, the keyset phase builds the keyset transaction request but no
transaction submission happens in it — refuting the claim that the keyset
installer both builds and submits the transaction. -/
theorem C3_counterexample :
    (∃ ev ∈ keysetPhase oracleOk stX, Event.isKeysetBuild ev = true) ∧
    ¬ (∃ ev ∈ keysetPhase oracleOk stX, Event.isSendTx ev = true) := by
  decide

/-- C3 (amended): in every run reaching the keyset phase, the keyset
installer builds the keyset transaction request but never signs or
broadcasts it — the keyset phase contains no transaction submission. -/
theorem C3_keyset_build_without_submit (o : Oracle) (st : ModuleState) :
    Event.buildKeysetRequest hardcodedUpgradeExecutor hardcodedSequencerInbox keysetBlob
      st.deployer ∈ keysetPhase o st ∧
    (keysetPhase o st).filter Event.isSendTx = [] := by
  rw [keysetPhase_eq]
  exact ⟨List.mem_singleton_self _, by simp [Event.isSendTx]⟩

/-- C4 counterexample: on a concrete run whose keyset-request build fails,
no log line at all is produced by the keyset phase — refuting the claim
that a keyset-phase error is logged before the run terminates. -/
theorem C4_counterexample :
    oracleKeysetFail.setValidKeysetRequest hardcodedUpgradeExecutor hardcodedSequencerInbox
      keysetBlob stX.deployer = Except.error "keyset transport error" ∧
    (keysetPhase oracleKeysetFail stX).filter Event.isLogLine = [] :=
  ⟨rfl, rfl⟩

/-- C4 (amended): every error raised inside the keyset phase is caught
(the phase still ends normally, with exactly the build attempt in its
trace), but nothing is logged — the empty catch block swallows the error
without producing any observable log line. -/
theorem C4_keyset_error_swallowed_unlogged (o : Oracle) (st : ModuleState) (msg : String)
    (h : o.setValidKeysetRequest hardcodedUpgradeExecutor hardcodedSequencerInbox keysetBlob
      st.deployer = Except.error msg) :
    keysetPhase o st =
      [Event.buildKeysetRequest hardcodedUpgradeExecutor hardcodedSequencerInbox keysetBlob
        st.deployer] ∧
    (keysetPhase o st).filter Event.isLogLine = [] := by
  refine ⟨keysetPhase_eq o st, ?_⟩
  rw [keysetPhase_eq]
  simp [Event.isLogLine]

/-- Witness for the amended C4 at a concrete failing keyset build. -/
theorem C4_keyset_error_swallowed_unlogged_witness :
    keysetPhase oracleKeysetFail stX =
      [Event.buildKeysetRequest hardcodedUpgradeExecutor hardcodedSequencerInbox keysetBlob
        stX.deployer] ∧
    (keysetPhase oracleKeysetFail stX).filter Event.isLogLine = [] :=
  C4_keyset_error_swallowed_unlogged oracleKeysetFail stX "keyset transport error" rfl

/-- C5: if `DEPLOYER_PRIVATE_KEY` or `CUSTOM_FEE_TOKEN_ADDRESS` is unset,
the script throws at module level and its trace is empty — in particular
neither client is constructed and no external call of any kind happens. -/
theorem C5_missing_required_env_fatal (env : Env) (o : Oracle)
    (h : env.DEPLOYER_PRIVATE_KEY = none ∨ env.CUSTOM_FEE_TOKEN_ADDRESS = none) :
    (∃ msg, (script env o).1 = Except.error msg) ∧ (script env o).2 = [] := by
  unfold script moduleInit
  rcases h with h | h
  · rw [h]
    exact ⟨⟨dpkMissingMsg, rfl⟩, rfl⟩
  · rcases hd : env.DEPLOYER_PRIVATE_KEY with _ | dpk
    · exact ⟨⟨dpkMissingMsg, rfl⟩, rfl⟩
    · rw [h]
      exact ⟨⟨cftaMissingMsg, rfl⟩, rfl⟩

/-- Witness for C5 with `DEPLOYER_PRIVATE_KEY` unset. -/
theorem C5_missing_required_env_fatal_witness :
    (∃ msg, (script envNoDeployer oracleOk).1 = Except.error msg) ∧
    (script envNoDeployer oracleOk).2 = [] :=
  C5_missing_required_env_fatal envNoDeployer oracleOk (Or.inl rfl)

/-- C6: `withFallbackPrivateKey` generates a fresh key (advancing the
generation counter) when the input is absent or the empty string, and for
every other input returns exactly `sanitizePrivateKey` of it (including a
normalization failure) without consuming randomness. -/
theorem C6_withFallback_contract (o : Oracle) (n : Nat) (s : String) (hs : s ≠ "") :
    withFallbackPrivateKey o n none =
      (Except.ok (o.generatedKey n), n + 1, [Event.genPrivateKey n]) ∧
    withFallbackPrivateKey o n (some "") =
      (Except.ok (o.generatedKey n), n + 1, [Event.genPrivateKey n]) ∧
    withFallbackPrivateKey o n (some s) =
      (o.sanitizePrivateKey s, n, [Event.sanitize s]) :=
  ⟨rfl, by simp [withFallbackPrivateKey], by simp [withFallbackPrivateKey, hs]⟩

/-- Witness for C6 at the counter 0 and the raw secret "rawsecret". -/
theorem C6_withFallback_contract_witness :
    withFallbackPrivateKey oracleOk 0 none =
      (Except.ok (oracleOk.generatedKey 0), 0 + 1, [Event.genPrivateKey 0]) ∧
    withFallbackPrivateKey oracleOk 0 (some "") =
      (Except.ok (oracleOk.generatedKey 0), 0 + 1, [Event.genPrivateKey 0]) ∧
    withFallbackPrivateKey oracleOk 0 (some "rawsecret") =
      (oracleOk.sanitizePrivateKey "rawsecret", 0, [Event.sanitize "rawsecret"]) :=
  C6_withFallback_contract oracleOk 0 "rawsecret" (by decide)

/-- C7: on every successful startup, both clients are bound to the same
effective endpoint; when `PARENT_CHAIN_RPC` is unset or empty a warning is
emitted and that endpoint is the default public one, and when it is set
non-empty no warning is emitted and that endpoint is the configured value. -/
theorem C7_rpc_warning_and_fallback (env : Env) (o : Oracle) (st : ModuleState)
    (tr : List Event) (h : moduleInit env o = (Except.ok st, tr)) :
    st.publicClientUrl = effUrl env ∧ st.walletClientUrl = effUrl env ∧
    (rpcMissing env = true →
      Event.warn rpcWarningMsg ∈ tr ∧ effUrl env = arbitrumSepoliaDefaultRpc) ∧
    (rpcMissing env = false →
      Event.warn rpcWarningMsg ∉ tr ∧
      ∃ s, env.PARENT_CHAIN_RPC = some s ∧ s ≠ "" ∧ effUrl env = s) := by
  obtain ⟨dpk, cfta, bppk, n1, vpk, n2, dkey, hdpk, hcf, hbp, hvp, hsan, hst, htr⟩ :=
    moduleInit_ok_char env o st tr h
  subst hst
  subst htr
  refine ⟨rfl, rfl, ?_, ?_⟩
  · intro hm
    refine ⟨?_, effUrl_of_missing env hm⟩
    apply List.mem_append_left
    apply List.mem_append_left
    apply List.mem_append_left
    simp [warnLead, hm]
  · intro hm
    refine ⟨?_, effUrl_of_set env hm⟩
    intro hmem
    rcases List.mem_append.mp hmem with hmem | hw
    rcases List.mem_append.mp hmem with hmem | hw
    rcases List.mem_append.mp hmem with hw | hw
    · simp [warnLead, hm] at hw
    · exact warn_not_mem_wfpk o 0 env.BATCH_POSTER_PRIVATE_KEY rpcWarningMsg hw
    · exact warn_not_mem_wfpk o n1 env.VALIDATOR_PRIVATE_KEY rpcWarningMsg hw
    · simp at hw

/-- Witness for C7 at a run with `PARENT_CHAIN_RPC` unset: the warning is
emitted and both clients fall back to the default endpoint. -/
theorem C7_rpc_warning_and_fallback_witness :
    stNoRpc.publicClientUrl = effUrl envNoRpc ∧
    stNoRpc.walletClientUrl = effUrl envNoRpc ∧
    (rpcMissing envNoRpc = true →
      Event.warn rpcWarningMsg ∈ trNoRpc ∧ effUrl envNoRpc = arbitrumSepoliaDefaultRpc) ∧
    (rpcMissing envNoRpc = false →
      Event.warn rpcWarningMsg ∉ trNoRpc ∧
      ∃ s, envNoRpc.PARENT_CHAIN_RPC = some s ∧ s ≠ "" ∧ effUrl envNoRpc = s) :=
  C7_rpc_warning_and_fallback envNoRpc oracleOk stNoRpc trNoRpc rfl

/-- C8: on the successful deployment path the executor performs, in this
order: build the request, submit it, wait for confirmation, parse the
receipt; it then logs the rollup and inbox addresses from the parsed
`CoreContracts` before the keyset phase runs. -/
theorem C8_success_path_order (env : Env) (o : Oracle) (st : ModuleState) (req : TxRequest)
    (txh : String) (rcpt : Receipt) (cc : CoreContracts)
    (h1 : o.createRollupRequest (rollupConfigOf o st) [st.batchPoster] [st.validator]
      env.CUSTOM_FEE_TOKEN_ADDRESS st.deployer = Except.ok req)
    (h2 : o.sendTransaction req = Except.ok txh)
    (h3 : o.waitForTransactionReceipt txh = Except.ok rcpt)
    (h4 : o.getCoreContracts rcpt = Except.ok cc) :
    mainRun env o st =
      [Event.buildRollupRequest (rollupConfigOf o st) [st.batchPoster] [st.validator]
         env.CUSTOM_FEE_TOKEN_ADDRESS st.deployer,
       Event.log "Transaction request prepared successfully",
       Event.log ("Parent Chain ID: " ++ toString req.chainId),
       Event.log "Creating rollup...",
       Event.sendTx st.walletAccount req,
       Event.log "Transaction sent. Waiting for confirmation...",
       Event.waitReceipt txh,
       Event.log ("Transaction confirmed: " ++ rcpt.transactionHash),
       Event.parseReceipt rcpt,
       Event.logCoreContracts cc,
       Event.log ("Rollup address: " ++ cc.rollup),
       Event.log ("Inbox address: " ++ cc.inbox)] ++ keysetPhase o st ∧
    (deployPhase env o st).2 = some cc := by
  have ha : deployAttempt env o st = (deployEvsOk env o st req txh rcpt cc, Except.ok cc) := by
    unfold deployAttempt
    simp only [h1, h2, h3, h4]
  constructor
  · unfold mainRun deployPhase
    rw [ha]
    simp [deployEvsOk, deployEvs3, deployEvs2, deployEvs1, buildEvOf]
  · unfold deployPhase
    rw [ha]

/-- Witness for C8 at a concrete fully-successful run. -/
theorem C8_success_path_order_witness :
    mainRun envOk oracleOk stX =
      [Event.buildRollupRequest (rollupConfigOf oracleOk stX) [stX.batchPoster]
         [stX.validator] envOk.CUSTOM_FEE_TOKEN_ADDRESS stX.deployer,
       Event.log "Transaction request prepared successfully",
       Event.log ("Parent Chain ID: " ++ toString reqOk.chainId),
       Event.log "Creating rollup...",
       Event.sendTx stX.walletAccount reqOk,
       Event.log "Transaction sent. Waiting for confirmation...",
       Event.waitReceipt "0xtxhash",
       Event.log ("Transaction confirmed: " ++ rcptOk.transactionHash),
       Event.parseReceipt rcptOk,
       Event.logCoreContracts ccOk,
       Event.log ("Rollup address: " ++ ccOk.rollup),
       Event.log ("Inbox address: " ++ ccOk.inbox)] ++ keysetPhase oracleOk stX ∧
    (deployPhase envOk oracleOk stX).2 = some ccOk :=
  C8_success_path_order envOk oracleOk stX reqOk "0xtxhash" rcptOk ccOk rfl rfl rfl rfl

/-- C9: with both required variables set to the empty string (and the
optional `BATCH_POSTER_PRIVATE_KEY` also empty), the startup guards pass:
the batch-poster key is freshly generated (the empty optional triggers
generation), the empty deployer key reaches `sanitizePrivateKey`, and on
successful startup the empty string itself is passed as the native fee
token to the rollup-request build. -/
theorem C9_empty_required_values_pass_guard (o : Oracle) :
    Event.genPrivateKey 0 ∈ (script envEmptyStrings o).2 ∧
    Event.sanitize "" ∈ (script envEmptyStrings o).2 ∧
    (∀ st tr, moduleInit envEmptyStrings o = (Except.ok st, tr) →
      Event.buildRollupRequest (rollupConfigOf o st) [st.batchPoster] [st.validator]
        (some "") st.deployer ∈ (script envEmptyStrings o).2) := by
  have hmod : Event.genPrivateKey 0 ∈ (moduleInit envEmptyStrings o).2 ∧
      Event.sanitize "" ∈ (moduleInit envEmptyStrings o).2 := by
    unfold moduleInit
    rcases hs : o.sanitizePrivateKey "" with e | dkey <;>
      simp [envEmptyStrings, withFallbackPrivateKey, warnLead, rpcMissing, hs]
  refine ⟨?_, ?_, ?_⟩
  · rw [script_trace]
    exact List.mem_append_left _ hmod.1
  · rw [script_trace]
    exact List.mem_append_left _ hmod.2
  · intro st tr hmo
    have hscr : (script envEmptyStrings o).2 = tr ++ mainRun envEmptyStrings o st := by
      unfold script
      rw [hmo]
    rw [hscr]
    apply List.mem_append_right
    apply List.mem_append_left
    exact deployPhase_build_mem envEmptyStrings o st

/-- Witness for C9 at the all-success oracle. -/
theorem C9_empty_required_values_pass_guard_witness :
    Event.genPrivateKey 0 ∈ (script envEmptyStrings oracleOk).2 ∧
    Event.sanitize "" ∈ (script envEmptyStrings oracleOk).2 ∧
    Event.buildRollupRequest (rollupConfigOf oracleOk stEmpty) [stEmpty.batchPoster]
      [stEmpty.validator] (some "") stEmpty.deployer ∈ (script envEmptyStrings oracleOk).2 :=
  ⟨(C9_empty_required_values_pass_guard oracleOk).1,
   (C9_empty_required_values_pass_guard oracleOk).2.1,
   (C9_empty_required_values_pass_guard oracleOk).2.2 stEmpty trEmpty rfl⟩

/-- C10: in every run, the only account ever bound to a signing operation
(wallet-client construction or transaction submission) is the deployer's
address; the batch-poster and validator identities enter the run only as
addresses derived with `privateKeyToAccount`, never as signers. -/
theorem C10_only_deployer_signs (env : Env) (o : Oracle) (st : ModuleState) (tr : List Event)
    (h : moduleInit env o = (Except.ok st, tr)) :
    (∀ ev ∈ (script env o).2,
      ev.signerAccount = none ∨ ev.signerAccount = some st.deployer) ∧
    st.batchPoster = o.privateKeyToAccount st.batchPosterPrivateKey ∧
    st.validator = o.privateKeyToAccount st.validatorPrivateKey ∧
    (∃ dpk dkey, env.DEPLOYER_PRIVATE_KEY = some dpk ∧
      o.sanitizePrivateKey dpk = Except.ok dkey ∧
      st.deployer = o.privateKeyToAccount dkey) := by
  obtain ⟨dpk, cfta, bppk, n1, vpk, n2, dkey, hdpk, hcf, hbp, hvp, hsan, hst, htr⟩ :=
    moduleInit_ok_char env o st tr h
  have hscr : (script env o).2 = tr ++ mainRun env o st := by
    unfold script
    rw [h]
  refine ⟨?_, ?_, ?_, dpk, dkey, hdpk, hsan, ?_⟩
  · intro ev hev
    rw [hscr] at hev
    rcases List.mem_append.mp hev with hev | hev
    · subst htr
      rcases List.mem_append.mp hev with hev | hw
      rcases List.mem_append.mp hev with hev | hw
      rcases List.mem_append.mp hev with hw | hw
      · by_cases hb : rpcMissing env <;> simp [warnLead, hb] at hw
        subst hw
        exact Or.inl rfl
      · exact Or.inl (wfpk_signer o 0 env.BATCH_POSTER_PRIVATE_KEY ev hw)
      · exact Or.inl (wfpk_signer o n1 env.VALIDATOR_PRIVATE_KEY ev hw)
      · simp at hw
        rcases hw with hw | hw | hw <;> subst hw
        · exact Or.inl rfl
        · exact Or.inl rfl
        · rw [hst]
          exact Or.inr rfl
    · rcases List.mem_append.mp hev with hev | hev
      · rcases deployPhase_signer env o st ev hev with hsig | hsig
        · exact Or.inl hsig
        · rw [hst] at hsig ⊢
          exact Or.inr hsig
      · rw [keysetPhase_eq] at hev
        rw [List.mem_singleton.mp hev]
        exact Or.inl rfl
  · rw [hst]
  · rw [hst]
  · rw [hst]

/-- Witness for C10 at a concrete successful startup. -/
theorem C10_only_deployer_signs_witness :
    (∀ ev ∈ (script envOk oracleOk).2,
      ev.signerAccount = none ∨ ev.signerAccount = some stX.deployer) ∧
    stX.batchPoster = oracleOk.privateKeyToAccount stX.batchPosterPrivateKey ∧
    stX.validator = oracleOk.privateKeyToAccount stX.validatorPrivateKey ∧
    (∃ dpk dkey, envOk.DEPLOYER_PRIVATE_KEY = some dpk ∧
      oracleOk.sanitizePrivateKey dpk = Except.ok dkey ∧
      stX.deployer = oracleOk.privateKeyToAccount dkey) :=
  C10_only_deployer_signs envOk oracleOk stX trOk rfl

end CreateAnytrust
